import Mathlib

set_option maxHeartbeats 1000000

/-!
Verification development for the balanced dataset partitioning pipeline of
tools/bal_train_test_split.py: label summarization (per-record representative
class), empty-label dumping, minimum-sample-per-class pruning, and the
stratified / fallback two-stage train-validation-test split.

Pure Python string and list manipulation is embedded directly; the internals
of the external stratified splitter (sklearn StratifiedShuffleSplit) are
modelled from the specification of the partitioner, as noted on each such
definition.  Randomness that the program seeds is embedded as a deterministic
function; randomness the program leaves unseeded (the numpy global generator
used by the fallback path) is embedded as an explicit ambient argument.
-/

/-- A Python string, as its list of characters. -/
abbrev PyStr := List Char

/-- Python str.rstrip() with no argument: drop trailing whitespace. -/
def pyRstrip (s : PyStr) : PyStr :=
  (s.reverse.dropWhile Char.isWhitespace).reverse

/-- Python str.split() with no argument: whitespace-delimited tokens, with
empty chunks dropped. -/
def pySplitWs (s : PyStr) : List PyStr :=
  (s.splitOnP Char.isWhitespace).filter (fun t => !t.isEmpty)

/-- Python statistics.mode (3.8 and later): the first-encountered value of
maximal multiplicity. -/
def pyMode {α : Type} [DecidableEq α] [Inhabited α] (l : List α) : α :=
  l.foldl (fun b y => if l.count b < l.count y then y else b) (l.headD default)

/-- First whitespace-delimited token of a line. -/
def lineTok (line : PyStr) : Option PyStr :=
  (pySplitWs line).head?

/-- Parse a run of decimal digits, the digit part of Python int(token). -/
def parseDigits (cs : List Char) : Option Nat :=
  match cs with
  | [] => none
  | _ =>
    if cs.all Char.isDigit then
      some (cs.foldl (fun n c => 10 * n + (c.toNat - '0'.toNat)) 0)
    else none

/-- Parse a decimal integer token, models Python int(token). -/
def parseIntTok (t : PyStr) : Option Int :=
  match t with
  | '-' :: rest => (parseDigits rest).map (fun n => -(n : Int))
  | _ => (parseDigits t).map (fun n => (n : Int))

/-- The class index carried by an annotation line: its first
whitespace-delimited token parsed as an integer.  This is how
get_class_names (source lines 65-74) reads a line, and how the spec defines
the class index of a line. -/
def lineClassIdx (line : PyStr) : Option Int :=
  (lineTok line).bind parseIntTok

/-- From the source (main, line 271): the per-line value fed into the mode
computation is str(line.rstrip()[0]), the first character of the
right-stripped line; none models the IndexError Python raises when the
stripped line is empty. -/
def lineFirstCh (line : PyStr) : Option PyStr :=
  match pyRstrip line with
  | [] => none
  | c :: _ => some [c]

/-- The cls_list loop of the source (main, lines 268-272): the per-line
values gathered for the mode computation; none as soon as one line fails. -/
def firstChars : List PyStr → Option (List PyStr)
  | [] => some []
  | l :: ls =>
    match lineFirstCh l, firstChars ls with
    | some c, some cs => some (c :: cs)
    | _, _ => none

/-- From the source (main, lines 262-286): the representative label of one
annotation record.  A record with zero lines (a size-0 file) gets the
sentinel string "-1"; otherwise the statistics.mode of the per-line values
produced by lineFirstCh.  none models an uncaught IndexError. -/
def recordLabel? (lines : List PyStr) : Option PyStr :=
  if lines.isEmpty then some "-1".data
  else (firstChars lines).map pyMode

/-- The class indices of all lines of a record; none if any line's first
token is not an integer. -/
def lineClasses : List PyStr → Option (List Int)
  | [] => some []
  | l :: ls =>
    match lineClassIdx l, lineClasses ls with
    | some c, some cs => some (c :: cs)
    | _, _ => none

/-- Modelled from the spec: the Label Summarizer contract — the statistical
mode of the class indices across all lines of the record, with integer
sentinel -1 for a record with zero lines. -/
def recordLabelSpec? (lines : List PyStr) : Option Int :=
  if lines.isEmpty then some (-1)
  else (lineClasses lines).map pyMode

/-- A pool sample: paired image file name, label file name, and the
representative label computed for the label file. -/
structure Sample where
  img : String
  lbl : String
  rep : PyStr
deriving DecidableEq

/-- From the source (main, lines 293-311): the single-pass
minimum-sample-per-class filter.  The class histogram is taken over the
current pool once; a sample is kept iff the count of its representative
label is at least minSamples. -/
def pruneMinPool (pool : List Sample) (minSamples : Nat) : List Sample :=
  pool.filter (fun s => decide (minSamples ≤ (pool.map (fun x => x.rep)).count s.rep))

/-- A split fraction, kept as an exact non-negative numerator / denominator
pair.  The Python program handles split fractions as floats; the claims treat
them as exact fractions in (0,1), which this type realises. -/
structure Frac where
  num : Nat
  den : Nat
deriving DecidableEq

/-- The fraction is a well-formed element of (0,1). -/
def Frac.valid (f : Frac) : Prop :=
  0 < f.num ∧ f.num < f.den

/-- Floor of f * n, models Python int(n * split). -/
def Frac.floorMul (f : Frac) (n : Nat) : Nat :=
  f.num * n / f.den

/-- Ceiling of f * n, the held-out total of the stratified splitter. -/
def Frac.ceilMul (f : Frac) (n : Nat) : Nat :=
  (f.num * n + f.den - 1) / f.den

/-- Nearest-integer rounding of f * c, the per-class reservation. -/
def Frac.roundMul (f : Frac) (c : Nat) : Nat :=
  (2 * f.num * c + f.den) / (2 * f.den)

/-- Sum of two fractions. -/
def Frac.add (a b : Frac) : Frac :=
  ⟨a.num * b.den + b.num * a.den, a.den * b.den⟩

/-- Quotient of two fractions. -/
def Frac.div (a b : Frac) : Frac :=
  ⟨a.num * b.den, a.den * b.num⟩

/-- The rational number a fraction denotes. -/
def Frac.toRat (f : Frac) : ℚ :=
  (f.num : ℚ) / (f.den : ℚ)

/-- The (position) members of one class, in input order. -/
def classMembers (y : List PyStr) (c : PyStr) : List Nat :=
  (List.range y.length).filter (fun i => decide (y.getD i [] = c))

/-- Modelled from the spec: the per-class held-out count of the stratified
splitter — a fraction f of the class's sample count, rounded to the nearest
valid split for that count. -/
def stratHeld (f : Frac) (c : Nat) : Nat :=
  min c (f.roundMul c)

/-- Modelled from the spec: the conditions under which the external
stratified splitter raises ValueError — fraction out of (0,1), an empty
side, a class with fewer than 2 members, or more classes than either side
can hold. -/
def stratFails (y : List PyStr) (f : Frac) : Bool :=
  let n := y.length
  let nTest := f.ceilMul n
  let nTrain := n - nTest
  let classes := y.dedup
  f.num == 0 || decide (f.den ≤ f.num) || f.den == 0 || nTrain == 0 || nTest == 0 ||
    classes.any (fun c => decide (y.count c < 2)) ||
    decide (nTrain < classes.length) || decide (nTest < classes.length)

/-- Modelled from the spec: the external stratified splitter
(sklearn StratifiedShuffleSplit with n_splits=1, test_size=f and the
hard-coded random_state=1 of source line 393).  none models exactly the
ValueError the library raises (the stratFails conditions); otherwise each
distinct class contributes its leading members to the train side and the
remaining stratHeld members to the held-out side, the seeded class iteration
and per-class permutation being modelled as deterministic orders. -/
def stratIdx (y : List PyStr) (f : Frac) : Option (List Nat × List Nat) :=
  let classes := y.dedup
  if stratFails y f then none
  else
    some
      (classes.flatMap (fun c => (classMembers y c).take (y.count c - stratHeld f (y.count c))),
       classes.flatMap (fun c => (classMembers y c).drop (y.count c - stratHeld f (y.count c))))

/-- From the source (set_split, lines 390-402): index selection.  The
stratified attempt is tried first; on its ValueError the fallback takes an
ambient permutation np — the output of the unseeded np.random.permutation —
and puts its first int(n_samples * split) entries in the held-out side and
the rest in the train side.  n_samples is the image list length, per the
source. -/
def setSplitIdx (nImgs : Nat) (y : List PyStr) (f : Frac) (np : List Nat) :
    List Nat × List Nat :=
  match stratIdx y f with
  | some p => p
  | none =>
    let nValid := f.floorMul nImgs
    (np.drop nValid, np.take nValid)

/-- The partitioner used the fallback path iff the stratified splitter raised. -/
def usedFallback (y : List PyStr) (f : Frac) : Bool :=
  (stratIdx y f).isNone

/-- Look up every position of idx in xs; none models an IndexError. -/
def getAll? {β : Type} (xs : List β) : List Nat → Option (List β)
  | [] => some []
  | i :: is =>
    match xs.get? i, getAll? xs is with
    | some v, some vs => some (v :: vs)
    | _, _ => none

/-- From the source (set_split, lines 404-421): gather the output lists
(train_images, valid_images, train_labels, valid_labels, valid_idents) from
the selected indices; an error models an IndexError escaping set_split. -/
def setSplitE (imgs lbls : List String) (idents : List PyStr) (f : Frac) (np : List Nat) :
    Except String (List String × List String × List String × List String × List PyStr) :=
  match getAll? imgs (setSplitIdx imgs.length idents f np).1,
      getAll? lbls (setSplitIdx imgs.length idents f np).1,
      getAll? imgs (setSplitIdx imgs.length idents f np).2,
      getAll? lbls (setSplitIdx imgs.length idents f np).2,
      getAll? idents (setSplitIdx imgs.length idents f np).2 with
  | some ti, some tl, some vi, some vl, some vm => Except.ok (ti, vi, tl, vl, vm)
  | _, _, _, _, _ => Except.error "IndexError"

/-- From the source (main, lines 333-341): the three-way orchestration.
First split at fraction valid + test into (train, rest), then split rest at
fraction test / (valid + test) into (validation, test).  Returns the three
image lists. -/
def threeWayE (imgs lbls : List String) (idents : List PyStr) (v t : Frac)
    (np1 np2 : List Nat) :
    Except String (List String × List String × List String) :=
  let totalPer := v.add t
  let testPer := t.div totalPer
  match setSplitE imgs lbls idents totalPer np1 with
  | Except.error e => Except.error e
  | Except.ok (ti, tempI, _, tempL, tempM) =>
    match setSplitE tempI tempL tempM testPer np2 with
    | Except.error e => Except.error e
    | Except.ok (vi, tei, _, _, _) => Except.ok (ti, vi, tei)

/-- From the source (main lines 326-341 together with arg_parse lines 39-40):
the split stage of the run.  randomState is the parsed --rand argument; the
body never reads it, mirroring the source, in which args.random_state is
parsed and then never used. -/
def runSplitStage (randomState : Int) (validF : Frac) (testF : Option Frac)
    (imgs lbls : List String) (idents : List PyStr) (np1 np2 : List Nat) :
    Except String (List String × List String × List String) :=
  match testF with
  | none =>
    match setSplitE imgs lbls idents validF np1 with
    | Except.error e => Except.error e
    | Except.ok (ti, vi, _, _, _) => Except.ok (ti, vi, [])
  | some t => threeWayE imgs lbls idents validF t np1 np2

/-- From the source (main, lines 326-331): the diagnostics printed around the
split stage.  set_split itself prints nothing, so these two messages are the
whole observable diagnostic output of the stage, identical in shape on both
paths. -/
def splitStageDiag (nImgs : Nat) (y : List PyStr) (f : Frac) (np : List Nat) :
    List String :=
  ["Performing stratified split...",
   "Split completed: " ++ toString (setSplitIdx nImgs y f np).1.length ++ " train, " ++
     toString (setSplitIdx nImgs y f np).2.length ++ " validation"]

/-- A filesystem operation performed by main before the split. -/
inductive FsOp : Type
  | mkdir (path : String)
  | rmtree (path : String)
  | copy (src dst : String)
deriving DecidableEq

/-- From the source (main, lines 164-213): directory preparation.  When an
output directory exists and the user confirms, it is removed; then the train
and valid trees are created, and the test tree when a test split is
requested.  All of this happens before the empty-label dump check. -/
def outputDirOps (trainExists validExists testExists testReq : Bool) : List FsOp :=
  (if trainExists then [FsOp.rmtree "train"] else []) ++
  (if validExists then [FsOp.rmtree "valid"] else []) ++
  (if testExists then [FsOp.rmtree "test"] else []) ++
  [FsOp.mkdir "train", FsOp.mkdir "valid",
   FsOp.mkdir "train/images", FsOp.mkdir "train/labels",
   FsOp.mkdir "valid/images", FsOp.mkdir "valid/labels"] ++
  (if testReq then [FsOp.mkdir "test", FsOp.mkdir "test/images", FsOp.mkdir "test/labels"]
   else [])

/-- Positions of the empty (size-0) label files, as the dump loop of the
source (main, lines 231-234) enumerates them. -/
def emptyIdxList (records : List (List PyStr)) : List Nat :=
  (List.range records.length).filter (fun i => (records.getD i []).isEmpty)

/-- Number of empty records in a pool of label files. -/
def countEmptyRecords (records : List (List PyStr)) : Nat :=
  (emptyIdxList records).length

/-- From the source (main, lines 228-250): the empty-label dump.  Records are
label files given as line lists; a size-0 file is the empty list.  If the
requested count exceeds the number of empty records the run exits with an
error (source line 241); otherwise a selection of empty records is removed —
random.sample under the module-level random.seed(1) of source line 21 is
deterministic, modelled as taking the first nDump empty positions. -/
def dumpStage (nDump : Option Nat) (records : List (List PyStr)) :
    Except String (List (List PyStr)) :=
  match nDump with
  | none => Except.ok records
  | some d =>
    if d > countEmptyRecords records then
      Except.error "ERROR: Number of empty dumps requested is greater than number of empty labels"
    else
      Except.ok (((records.enum).filter (fun p =>
        decide (p.1 ∉ (emptyIdxList records).take d))).map (fun p => p.2))

/-- From the source (main, lines 164-250): the filesystem operations
performed and the pool state reached by the time the empty-dump check runs.
The directory operations happen unconditionally before the check. -/
def mainSetup (trainExists validExists testExists testReq : Bool) (nDump : Option Nat)
    (records : List (List PyStr)) :
    List FsOp × Except String (List (List PyStr)) :=
  (outputDirOps trainExists validExists testExists testReq, dumpStage nDump records)


/-! Helper lemmas. -/

theorem flatMapCongrMem {α β : Type} (cs : List α) (f g : α → List β)
    (h : ∀ x ∈ cs, f x = g x) : cs.flatMap f = cs.flatMap g := by
  induction cs with
  | nil => rfl
  | cons c cs ih =>
    simp only [List.flatMap_cons]
    rw [h c (List.mem_cons_self c cs), ih (fun x hx => h x (List.mem_cons_of_mem c hx))]

theorem flatMapTakeDropPerm {α β : Type} (cs : List α) (m : α → List β) (k : α → Nat) :
    (cs.flatMap (fun c => (m c).take (k c)) ++ cs.flatMap (fun c => (m c).drop (k c))).Perm
      (cs.flatMap m) := by
  induction cs with
  | nil => simp
  | cons c cs ih =>
    simp only [List.flatMap_cons]
    have h2 :
        (cs.flatMap (fun c => (m c).take (k c)) ++
            ((m c).drop (k c) ++ cs.flatMap (fun c => (m c).drop (k c)))).Perm
          ((m c).drop (k c) ++
            (cs.flatMap (fun c => (m c).take (k c)) ++ cs.flatMap (fun c => (m c).drop (k c)))) := by
      rw [← List.append_assoc, ← List.append_assoc]
      exact List.Perm.append_right _ List.perm_append_comm
    have h3 := (List.Perm.append_left ((m c).take (k c)) h2).trans
      (List.Perm.append_left _ (List.Perm.append_left _ ih))
    rw [List.append_assoc]
    refine h3.trans ?_
    rw [← List.append_assoc, List.take_append_drop]

theorem flatMapFilterKeyPerm {ι κ : Type} [DecidableEq κ] (cs : List κ) (key : ι → κ) :
    ∀ (l : List ι), cs.Nodup → (∀ i ∈ l, key i ∈ cs) →
      (cs.flatMap (fun c => l.filter (fun i => decide (key i = c)))).Perm l := by
  induction cs with
  | nil =>
    intro l _ hcov
    have hl : l = [] := List.eq_nil_iff_forall_not_mem.mpr (fun i hi => by simpa using hcov i hi)
    simp [hl]
  | cons c cs ih =>
    intro l hnd hcov
    simp only [List.flatMap_cons]
    obtain ⟨hc, hnd'⟩ := List.nodup_cons.mp hnd
    have hrw : cs.flatMap (fun c' => l.filter (fun i => decide (key i = c'))) =
        cs.flatMap (fun c' =>
          (l.filter (fun i => !decide (key i = c))).filter (fun i => decide (key i = c'))) := by
      refine flatMapCongrMem cs _ _ (fun c' hc' => ?_)
      rw [List.filter_filter]
      refine (List.filter_congr (fun i _ => ?_)).symm
      by_cases h : key i = c'
      · have hne : ¬ c' = c := fun hec => hc (hec ▸ hc')
        simp [h, hne]
      · simp [h]
    rw [hrw]
    have hcov' : ∀ i ∈ l.filter (fun i => !decide (key i = c)), key i ∈ cs := by
      intro i hi
      obtain ⟨hil, hip⟩ := List.mem_filter.mp hi
      have := hcov i hil
      simp only [List.mem_cons] at this
      rcases this with h | h
      · simp [h] at hip
      · exact h
    exact (List.Perm.append_left _ (ih _ hnd' hcov')).trans (List.filter_append_perm _ l)

theorem stratIdxPerm (y : List PyStr) (f : Frac) (tr va : List Nat)
    (h : stratIdx y f = some (tr, va)) : (tr ++ va).Perm (List.range y.length) := by
  unfold stratIdx at h
  by_cases hf : stratFails y f = true
  · simp [hf] at h
  · simp only [hf, Bool.false_eq_true, if_false, if_neg, Option.some.injEq] at h
    obtain ⟨htr, hva⟩ := Prod.mk.injEq .. ▸ h
    have hA := flatMapTakeDropPerm y.dedup (classMembers y)
      (fun c => y.count c - stratHeld f (y.count c))
    have hB := flatMapFilterKeyPerm y.dedup (fun i => y.getD i []) (List.range y.length)
      (List.nodup_dedup y) ?_
    · rw [← htr, ← hva]
      exact hA.trans hB
    · intro i hi
      have hlt : i < y.length := List.mem_range.mp hi
      show y.getD i [] ∈ y.dedup
      rw [List.getD_eq_getElem y [] hlt]
      exact List.mem_dedup.mpr (List.getElem_mem hlt)

theorem setSplitIdxPerm (nI : Nat) (y : List PyStr) (f : Frac) (np : List Nat)
    (hy : y.length = nI) (hnp : np.Perm (List.range nI)) :
    ((setSplitIdx nI y f np).1 ++ (setSplitIdx nI y f np).2).Perm (List.range nI) := by
  unfold setSplitIdx
  cases hs : stratIdx y f with
  | some p =>
    have := stratIdxPerm y f p.1 p.2 (by rw [hs])
    simpa [hy] using this
  | none =>
    simp only []
    refine List.Perm.trans (List.Perm.trans List.perm_append_comm ?_) hnp
    rw [List.take_append_drop]

theorem setSplitIdxMemLt (nI : Nat) (y : List PyStr) (f : Frac) (np : List Nat)
    (hy : y.length = nI) (hnp : np.Perm (List.range nI)) :
    (∀ i ∈ (setSplitIdx nI y f np).1, i < nI) ∧ (∀ i ∈ (setSplitIdx nI y f np).2, i < nI) := by
  have hp := setSplitIdxPerm nI y f np hy hnp
  constructor
  · intro i hi
    exact List.mem_range.mp (hp.subset (List.mem_append_left _ hi))
  · intro i hi
    exact List.mem_range.mp (hp.subset (List.mem_append_right _ hi))

theorem getAllEqMap {β : Type} [Inhabited β] (xs : List β) :
    ∀ (idx : List Nat), (∀ i ∈ idx, i < xs.length) →
      getAll? xs idx = some (idx.map (fun i => xs.getD i default))
  | [], _ => rfl
  | i :: is, h => by
    have hi : i < xs.length := h i (List.mem_cons_self i is)
    have ih := getAllEqMap xs is (fun j hj => h j (List.mem_cons_of_mem i hj))
    simp only [getAll?, List.map_cons]
    rw [List.get?_eq_get hi, ih, List.getD_eq_get xs default hi]

theorem mapGetDRange {β : Type} [Inhabited β] :
    ∀ (xs : List β), (List.range xs.length).map (fun i => xs.getD i default) = xs
  | [] => rfl
  | x :: xs => by
    rw [List.length_cons, List.range_succ_eq_map, List.map_cons, List.map_map]
    have h2 : ((fun i => (x :: xs).getD i default) ∘ Nat.succ) =
        (fun i => xs.getD i default) := rfl
    rw [h2, mapGetDRange xs]
    rfl

theorem setSplitEOk (imgs lbls : List String) (idents : List PyStr) (f : Frac) (np : List Nat)
    (hi : idents.length = imgs.length) (hl : lbls.length = imgs.length)
    (hnp : np.Perm (List.range imgs.length)) :
    setSplitE imgs lbls idents f np =
      Except.ok
        ((setSplitIdx imgs.length idents f np).1.map (fun i => imgs.getD i default),
         (setSplitIdx imgs.length idents f np).2.map (fun i => imgs.getD i default),
         (setSplitIdx imgs.length idents f np).1.map (fun i => lbls.getD i default),
         (setSplitIdx imgs.length idents f np).2.map (fun i => lbls.getD i default),
         (setSplitIdx imgs.length idents f np).2.map (fun i => idents.getD i default)) := by
  obtain ⟨h1, h2⟩ := setSplitIdxMemLt imgs.length idents f np hi hnp
  unfold setSplitE
  rw [getAllEqMap imgs _ h1,
      getAllEqMap lbls _ (fun i hi' => by rw [hl]; exact h1 i hi'),
      getAllEqMap imgs _ h2,
      getAllEqMap lbls _ (fun i hi' => by rw [hl]; exact h2 i hi'),
      getAllEqMap idents _ (fun i hi' => by rw [hi]; exact h2 i hi')]

theorem firstCharsSome :
    ∀ (lines : List PyStr), (∀ l ∈ lines, pyRstrip l ≠ []) → ∃ v, firstChars lines = some v
  | [], _ => ⟨[], rfl⟩
  | a :: as, h => by
    obtain ⟨v, hv⟩ := firstCharsSome as (fun l hl => h l (List.mem_cons_of_mem a hl))
    have ha := h a (List.mem_cons_self a as)
    cases hrs : pyRstrip a with
    | nil => exact absurd hrs ha
    | cons c cs =>
      refine ⟨[c] :: v, ?_⟩
      simp only [firstChars, lineFirstCh, hrs, hv]

theorem mapFilterComp {α β : Type} (f : α → β) (p : β → Bool) :
    ∀ (l : List α), (l.filter (fun a => p (f a))).map f = (l.map f).filter p
  | [] => rfl
  | a :: l => by
    by_cases h : p (f a) <;>
      simp [List.filter_cons, h, mapFilterComp f p l]

theorem copyNotInOutputDirOps (a b c t : Bool) (s d : String) :
    FsOp.copy s d ∉ outputDirOps a b c t := by
  cases a <;> cases b <;> cases c <;> cases t <;> simp [outputDirOps]

/-! Claim theorems. -/

/-- C1: the Label Summarizer is claimed to return the statistical mode of the
class indices of the record's lines.  The code instead takes the mode of each
line's first character: on a record whose lines carry the two-digit class 12
twice and class 3 once, the class-index mode is 12, but the code computes the
mode of the first characters and returns the label "1", conflating class 12
with class 1.  The empty-record sentinel "-1" part of the claim does hold and
is distinct from every real class index. -/
theorem summarizer_takes_first_char_not_token :
    recordLabel? ["12 0.1 0.2".data, "12 0.3 0.4".data, "3 0.5 0.6".data] = some ['1'] ∧
    recordLabelSpec? ["12 0.1 0.2".data, "12 0.3 0.4".data, "3 0.5 0.6".data] = some 12 ∧
    parseIntTok ['1'] = some 1 ∧ (1 : Int) ≠ 12 ∧
    recordLabel? [] = some "-1".data ∧ parseIntTok "-1".data = some (-1) := by decide

/-- C8 (counterexample): a record whose line's first token "abc" is not
numeric does not make the run fail: the summarizer silently accepts it —
recordLabel? returns the label 'a' instead of an error. -/
theorem nonnumeric_token_silently_accepted :
    lineClassIdx "abc 0.5 0.5".data = none ∧
    recordLabel? ["abc 0.5 0.5".data] = some ['a'] := by decide

/-- C8 (amended): the summarization stage never rejects a record — for every
record whose lines are non-empty after stripping, processing succeeds with
some representative label, whether or not any first token is numeric; no
ParseError identifying a file and line exists in this stage. -/
theorem malformed_record_silently_accepted (lines : List PyStr)
    (h : ∀ l ∈ lines, pyRstrip l ≠ []) : ∃ m, recordLabel? lines = some m := by
  unfold recordLabel?
  by_cases he : lines.isEmpty
  · exact ⟨_, by rw [if_pos he]⟩
  · rw [if_neg he]
    obtain ⟨v, hv⟩ := firstCharsSome lines h
    exact ⟨_, by rw [hv]; rfl⟩

theorem malformed_record_silently_accepted_witness :
    (∀ l ∈ (["abc 0.5 0.5".data] : List PyStr), pyRstrip l ≠ []) ∧
    ∃ m, recordLabel? ["abc 0.5 0.5".data] = some m :=
  ⟨by decide, malformed_record_silently_accepted ["abc 0.5 0.5".data] (by decide)⟩

/-- C5: after the single-pass minimum-sample filter, every retained sample's
representative label has histogram count at least minSamples in the
resulting pool (vacuously so when the pool is empty). -/
theorem pruner_retains_only_populated_classes (pool : List Sample) (minS : Nat) (s : Sample)
    (h : s ∈ pruneMinPool pool minS) :
    minS ≤ ((pruneMinPool pool minS).map (fun x => x.rep)).count s.rep := by
  have hmem := List.mem_filter.mp h
  have hle := of_decide_eq_true hmem.2
  calc minS ≤ (pool.map (fun x => x.rep)).count s.rep := hle
  _ = ((pool.map (fun x => x.rep)).filter
        (fun m => decide (minS ≤ (pool.map (fun x => x.rep)).count m))).count s.rep :=
    (@List.count_filter _ _ _
      (fun m => decide (minS ≤ (pool.map (fun x => x.rep)).count m)) s.rep
      (pool.map (fun x => x.rep)) hmem.2).symm
  _ = ((pruneMinPool pool minS).map (fun x => x.rep)).count s.rep := by
    rw [pruneMinPool, ← mapFilterComp]

theorem pruner_retains_only_populated_classes_witness :
    (⟨"i1", "l1", ['a']⟩ : Sample) ∈ pruneMinPool [⟨"i1", "l1", ['a']⟩, ⟨"i2", "l2", ['a']⟩] 2 ∧
    2 ≤ ((pruneMinPool [⟨"i1", "l1", ['a']⟩, ⟨"i2", "l2", ['a']⟩] 2).map
          (fun x => x.rep)).count ['a'] :=
  ⟨by decide,
    pruner_retains_only_populated_classes [⟨"i1", "l1", ['a']⟩, ⟨"i2", "l2", ['a']⟩] 2
      ⟨"i1", "l1", ['a']⟩ (by decide)⟩

/-- C3: two runs with identical pool, seed and parameters can differ on the
fallback path.  random.seed(1) seeds only Python's random module and
random_state=1 only the stratified splitter; the fallback permutation comes
from numpy's never-seeded global generator, modelled by the ambient np
argument.  On the pool with labels a, a, b and split 1/2 the stratified
splitter raises and the fallback runs; two legitimate states of the unseeded
generator, the permutations 0 1 2 and 2 1 0 of range 3, give different
train/validation index sets, so the run's output is not a function of pool,
seed and parameters. -/
theorem fallback_output_depends_on_unseeded_generator :
    usedFallback [['a'], ['a'], ['b']] ⟨1, 2⟩ = true ∧
    List.Perm [0, 1, 2] (List.range 3) ∧ List.Perm [2, 1, 0] (List.range 3) ∧
    setSplitIdx 3 [['a'], ['a'], ['b']] ⟨1, 2⟩ [0, 1, 2] ≠
      setSplitIdx 3 [['a'], ['a'], ['b']] ⟨1, 2⟩ [2, 1, 0] := by decide

/-- C9 (counterexample): a fallback run and a stratified run produce the very
same diagnostic output — the fixed messages around the split stage — so the
degraded mode is not surfaced: the pool a, a, b at split 1/2 falls back while
the pool a, a, a at split 1/3 is stratified, and their diagnostics coincide
verbatim (both even say "stratified"). -/
theorem fallback_diag_indistinguishable_concrete :
    usedFallback [['a'], ['a'], ['b']] ⟨1, 2⟩ = true ∧
    usedFallback [['a'], ['a'], ['a']] ⟨1, 3⟩ = false ∧
    splitStageDiag 3 [['a'], ['a'], ['b']] ⟨1, 2⟩ [0, 1, 2] =
      splitStageDiag 3 [['a'], ['a'], ['a']] ⟨1, 3⟩ [0, 1, 2] := by decide

/-- C9 (amended): the fallback path is never surfaced in diagnostics —
set_split prints nothing and returns no path indicator, and the split-stage
messages depend only on the result sizes, so any fallback run is
indistinguishable from any stratified run with the same subset sizes. -/
theorem fallback_not_flagged_in_diag (n1 : Nat) (y1 : List PyStr) (f1 : Frac) (np1 : List Nat)
    (n2 : Nat) (y2 : List PyStr) (f2 : Frac) (np2 : List Nat)
    (h1 : usedFallback y1 f1 = true) (h2 : usedFallback y2 f2 = false)
    (htr : (setSplitIdx n1 y1 f1 np1).1.length = (setSplitIdx n2 y2 f2 np2).1.length)
    (hva : (setSplitIdx n1 y1 f1 np1).2.length = (setSplitIdx n2 y2 f2 np2).2.length) :
    splitStageDiag n1 y1 f1 np1 = splitStageDiag n2 y2 f2 np2 := by
  unfold splitStageDiag
  rw [htr, hva]

theorem fallback_not_flagged_in_diag_witness :
    (usedFallback [['a'], ['a'], ['b']] ⟨1, 2⟩ = true ∧
     usedFallback [['a'], ['a'], ['a']] ⟨1, 3⟩ = false ∧
     (setSplitIdx 3 [['a'], ['a'], ['b']] ⟨1, 2⟩ [0, 1, 2]).1.length =
       (setSplitIdx 3 [['a'], ['a'], ['a']] ⟨1, 3⟩ [0, 1, 2]).1.length ∧
     (setSplitIdx 3 [['a'], ['a'], ['b']] ⟨1, 2⟩ [0, 1, 2]).2.length =
       (setSplitIdx 3 [['a'], ['a'], ['a']] ⟨1, 3⟩ [0, 1, 2]).2.length) ∧
    splitStageDiag 3 [['a'], ['a'], ['b']] ⟨1, 2⟩ [0, 1, 2] =
      splitStageDiag 3 [['a'], ['a'], ['a']] ⟨1, 3⟩ [0, 1, 2] :=
  ⟨⟨by decide, by decide, by decide, by decide⟩,
    fallback_not_flagged_in_diag 3 [['a'], ['a'], ['b']] ⟨1, 2⟩ [0, 1, 2]
      3 [['a'], ['a'], ['a']] ⟨1, 3⟩ [0, 1, 2]
      (by decide) (by decide) (by decide) (by decide)⟩

/-- C4 (counterexample): with a pool of three empty label files and a dump
request of five, the run does fail, but the filesystem is not untouched: the
output directory operations (six mkdir calls) have already run before the
check, so the list of performed operations at the moment of failure is not
empty. -/
theorem dump_overflow_dirs_already_created :
    (mainSetup false false false false (some 5) [[], [], []]).2 =
      Except.error "ERROR: Number of empty dumps requested is greater than number of empty labels" ∧
    (mainSetup false false false false (some 5) [[], [], []]).1 ≠ [] :=
  ⟨rfl, by decide⟩

/-- C4 (amended): whenever the requested dump count exceeds the number of
empty-label samples, the run fails and aborts before mutating the pool and
before copying any file — but only after the output directory tree has been
created (and any pre-existing output directories removed): the operations
performed are exactly the directory operations, among which no copy occurs. -/
theorem dump_overflow_aborts_after_mkdirs (a b c tReq : Bool) (d : Nat)
    (records : List (List PyStr)) (h : countEmptyRecords records < d) :
    (mainSetup a b c tReq (some d) records).2 =
      Except.error "ERROR: Number of empty dumps requested is greater than number of empty labels" ∧
    (mainSetup a b c tReq (some d) records).1 = outputDirOps a b c tReq ∧
    ∀ s d', FsOp.copy s d' ∉ (mainSetup a b c tReq (some d) records).1 := by
  refine ⟨?_, rfl, fun s d' => copyNotInOutputDirOps a b c tReq s d'⟩
  show dumpStage (some d) records = Except.error _
  show (if d > countEmptyRecords records then
      (Except.error
        "ERROR: Number of empty dumps requested is greater than number of empty labels" :
        Except String (List (List PyStr)))
    else Except.ok (((records.enum).filter (fun p =>
      decide (p.1 ∉ (emptyIdxList records).take d))).map (fun p => p.2))) = Except.error _
  rw [if_pos h]

theorem dump_overflow_aborts_after_mkdirs_witness :
    countEmptyRecords [[], [], []] < 5 ∧
    ((mainSetup false true false true (some 5) [[], [], []]).2 =
      Except.error "ERROR: Number of empty dumps requested is greater than number of empty labels" ∧
    (mainSetup false true false true (some 5) [[], [], []]).1 = outputDirOps false true false true ∧
    ∀ s d', FsOp.copy s d' ∉ (mainSetup false true false true (some 5) [[], [], []]).1) :=
  ⟨by decide, dump_overflow_aborts_after_mkdirs false true false true 5 [[], [], []] (by decide)⟩

/-- C10: the parsed random-seed parameter is never consumed — whenever the
stratified path applies, two runs of the split stage with any two seed values
(and even any two ambient numpy states, which the stratified path ignores)
produce identical train/validation/test sets. -/
theorem seed_parameter_never_consumed (s s' : Int) (validF : Frac) (imgs lbls : List String)
    (idents : List PyStr) (np1 np1' np2 np2' : List Nat)
    (h : (stratIdx idents validF).isSome = true) :
    runSplitStage s validF none imgs lbls idents np1 np2 =
      runSplitStage s' validF none imgs lbls idents np1' np2' := by
  obtain ⟨p, hp⟩ := Option.isSome_iff_exists.mp h
  simp [runSplitStage, setSplitE, setSplitIdx, hp]

theorem seed_parameter_never_consumed_witness :
    (stratIdx [['a'], ['a'], ['a'], ['a']] ⟨1, 2⟩).isSome = true ∧
    runSplitStage 1 ⟨1, 2⟩ none ["i0", "i1", "i2", "i3"] ["l0", "l1", "l2", "l3"]
        [['a'], ['a'], ['a'], ['a']] [0, 1, 2, 3] [] =
      runSplitStage 42 ⟨1, 2⟩ none ["i0", "i1", "i2", "i3"] ["l0", "l1", "l2", "l3"]
        [['a'], ['a'], ['a'], ['a']] [3, 2, 1, 0] [] :=
  ⟨by decide,
    seed_parameter_never_consumed 1 42 ⟨1, 2⟩ ["i0", "i1", "i2", "i3"]
      ["l0", "l1", "l2", "l3"] [['a'], ['a'], ['a'], ['a']] [0, 1, 2, 3] [3, 2, 1, 0] [] []
      (by decide)⟩

/-- C2: for every pool (with matching image, label, and representative-label
list lengths) and any state of the ambient permutation, set_split returns two
index sets that are disjoint and whose concatenation is a permutation of all
positions, so the returned image and label lists are a permutation of the
pool — no sample duplicated, no sample dropped, on both the stratified and
the fallback path (the statement quantifies over all inputs, hence both
paths). -/
theorem set_split_partition (imgs lbls : List String) (idents : List PyStr) (f : Frac)
    (np : List Nat)
    (hi : idents.length = imgs.length) (hl : lbls.length = imgs.length)
    (hnp : np.Perm (List.range imgs.length)) :
    ∃ ti vi tl vl vm,
      setSplitE imgs lbls idents f np = Except.ok (ti, vi, tl, vl, vm) ∧
      (ti ++ vi).Perm imgs ∧ (tl ++ vl).Perm lbls ∧
      (setSplitIdx imgs.length idents f np).1.Disjoint (setSplitIdx imgs.length idents f np).2 := by
  have hok := setSplitEOk imgs lbls idents f np hi hl hnp
  have hperm := setSplitIdxPerm imgs.length idents f np hi hnp
  refine ⟨_, _, _, _, _, hok, ?_, ?_, ?_⟩
  · have h2 := hperm.map (fun i => imgs.getD i default)
    rw [mapGetDRange imgs] at h2
    rw [← List.map_append]
    exact h2
  · have e2 : (List.range imgs.length).map (fun i => lbls.getD i default) = lbls := by
      rw [← hl]
      exact mapGetDRange lbls
    have h2 := hperm.map (fun i => lbls.getD i default)
    rw [e2] at h2
    rw [← List.map_append]
    exact h2
  · have hndall : ((setSplitIdx imgs.length idents f np).1 ++
        (setSplitIdx imgs.length idents f np).2).Nodup :=
      hperm.nodup_iff.mpr (List.nodup_range _)
    exact (List.nodup_append.mp hndall).2.2

theorem set_split_partition_witness :
    (([['a'], ['a'], ['a'], ['a']] : List PyStr).length = (["i0", "i1", "i2", "i3"] : List String).length ∧
     (["l0", "l1", "l2", "l3"] : List String).length = (["i0", "i1", "i2", "i3"] : List String).length ∧
     List.Perm [1, 0, 3, 2] (List.range (["i0", "i1", "i2", "i3"] : List String).length)) ∧
    ∃ ti vi tl vl vm,
      setSplitE ["i0", "i1", "i2", "i3"] ["l0", "l1", "l2", "l3"]
          [['a'], ['a'], ['a'], ['a']] ⟨1, 2⟩ [1, 0, 3, 2] = Except.ok (ti, vi, tl, vl, vm) ∧
      (ti ++ vi).Perm ["i0", "i1", "i2", "i3"] ∧ (tl ++ vl).Perm ["l0", "l1", "l2", "l3"] ∧
      (setSplitIdx (["i0", "i1", "i2", "i3"] : List String).length
          [['a'], ['a'], ['a'], ['a']] ⟨1, 2⟩ [1, 0, 3, 2]).1.Disjoint
        (setSplitIdx (["i0", "i1", "i2", "i3"] : List String).length
          [['a'], ['a'], ['a'], ['a']] ⟨1, 2⟩ [1, 0, 3, 2]).2 :=
  ⟨⟨by decide, by decide, by decide⟩,
    set_split_partition ["i0", "i1", "i2", "i3"] ["l0", "l1", "l2", "l3"]
      [['a'], ['a'], ['a'], ['a']] ⟨1, 2⟩ [1, 0, 3, 2] (by decide) (by decide) (by decide)⟩

/-- C7: on a legitimate pool in which some class has exactly one member (for
any split fraction, in particular one half), the Balanced Partitioner never
raises: the stratified splitter signals failure, the fallback path runs, and
set_split still returns a valid two-way partition of the pool. -/
theorem partitioner_total_on_singleton_class (imgs lbls : List String)
    (idents : List PyStr) (f : Frac) (np : List Nat) (c : PyStr)
    (hi : idents.length = imgs.length) (hl : lbls.length = imgs.length)
    (hnp : np.Perm (List.range imgs.length)) (hc : idents.count c = 1) :
    usedFallback idents f = true ∧
    ∃ ti vi tl vl vm,
      setSplitE imgs lbls idents f np = Except.ok (ti, vi, tl, vl, vm) ∧
      (ti ++ vi).Perm imgs := by
  have hcmem : c ∈ idents := by
    have hpos : 0 < idents.count c := by omega
    exact List.count_pos_iff_mem.mp hpos
  have hfail : stratFails idents f = true := by
    simp only [stratFails, Bool.or_eq_true, List.any_eq_true, decide_eq_true_eq]
    refine Or.inl (Or.inl (Or.inr ⟨c, List.mem_dedup.mpr hcmem, ?_⟩))
    omega
  refine ⟨?_, ?_⟩
  · simp [usedFallback, stratIdx, hfail]
  · have hok := setSplitEOk imgs lbls idents f np hi hl hnp
    have hperm := setSplitIdxPerm imgs.length idents f np hi hnp
    refine ⟨_, _, _, _, _, hok, ?_⟩
    have h2 := hperm.map (fun i => imgs.getD i default)
    rw [mapGetDRange imgs] at h2
    rw [← List.map_append]
    exact h2

theorem partitioner_total_on_singleton_class_witness :
    (([['a'], ['a'], ['b']] : List PyStr).length = (["x", "y", "z"] : List String).length ∧
     (["lx", "ly", "lz"] : List String).length = (["x", "y", "z"] : List String).length ∧
     List.Perm [2, 0, 1] (List.range (["x", "y", "z"] : List String).length) ∧
     ([['a'], ['a'], ['b']] : List PyStr).count ['b'] = 1) ∧
    (usedFallback [['a'], ['a'], ['b']] ⟨1, 2⟩ = true ∧
     ∃ ti vi tl vl vm,
       setSplitE ["x", "y", "z"] ["lx", "ly", "lz"] [['a'], ['a'], ['b']] ⟨1, 2⟩ [2, 0, 1] =
         Except.ok (ti, vi, tl, vl, vm) ∧
       (ti ++ vi).Perm ["x", "y", "z"]) :=
  ⟨⟨by decide, by decide, by decide, by decide⟩,
    partitioner_total_on_singleton_class ["x", "y", "z"] ["lx", "ly", "lz"]
      [['a'], ['a'], ['b']] ⟨1, 2⟩ [2, 0, 1] ['b'] (by decide) (by decide) (by decide) (by decide)⟩

/-- C6: the three-way orchestration first splits the pool at fraction
v + t into (train, rest), then splits rest at fraction t / (v + t) into
(validation, test); the three image sets are pairwise disjoint with union a
permutation of the pool, and the composed stage fractions recover the
requested ratios exactly: (t / (v+t)) * (v+t) = t and
(1 - t / (v+t)) * (v+t) = v as rational numbers. -/
theorem three_way_split_partition (imgs lbls : List String) (idents : List PyStr)
    (v t : Frac) (np1 np2 : List Nat)
    (hi : idents.length = imgs.length) (hl : lbls.length = imgs.length)
    (hnd : imgs.Nodup)
    (hnp1 : np1.Perm (List.range imgs.length))
    (hnp2 : np2.Perm (List.range (setSplitIdx imgs.length idents (v.add t) np1).2.length))
    (hv : 0 < v.num) (hvd : 0 < v.den) (ht : 0 < t.num) (htd : 0 < t.den) :
    ∃ a b c, threeWayE imgs lbls idents v t np1 np2 = Except.ok (a, b, c) ∧
      (a ++ b ++ c).Perm imgs ∧
      a.Disjoint b ∧ a.Disjoint c ∧ b.Disjoint c ∧
      (t.div (v.add t)).toRat * (v.add t).toRat = t.toRat ∧
      (1 - (t.div (v.add t)).toRat) * (v.add t).toRat = v.toRat := by
  have hok1 := setSplitEOk imgs lbls idents (v.add t) np1 hi hl hnp1
  have hperm1 := setSplitIdxPerm imgs.length idents (v.add t) np1 hi hnp1
  have hlenI : ((setSplitIdx imgs.length idents (v.add t) np1).2.map
      (fun i => imgs.getD i default)).length =
      (setSplitIdx imgs.length idents (v.add t) np1).2.length := List.length_map _ _
  have hlenL : ((setSplitIdx imgs.length idents (v.add t) np1).2.map
      (fun i => lbls.getD i default)).length =
      ((setSplitIdx imgs.length idents (v.add t) np1).2.map
      (fun i => imgs.getD i default)).length := by
    rw [List.length_map, List.length_map]
  have hlenM : ((setSplitIdx imgs.length idents (v.add t) np1).2.map
      (fun i => idents.getD i default)).length =
      ((setSplitIdx imgs.length idents (v.add t) np1).2.map
      (fun i => imgs.getD i default)).length := by
    rw [List.length_map, List.length_map]
  have hnp2' : np2.Perm (List.range
      ((setSplitIdx imgs.length idents (v.add t) np1).2.map
        (fun i => imgs.getD i default)).length) := by
    rw [hlenI]
    exact hnp2
  have hok2 := setSplitEOk
    ((setSplitIdx imgs.length idents (v.add t) np1).2.map (fun i => imgs.getD i default))
    ((setSplitIdx imgs.length idents (v.add t) np1).2.map (fun i => lbls.getD i default))
    ((setSplitIdx imgs.length idents (v.add t) np1).2.map (fun i => idents.getD i default))
    (t.div (v.add t)) np2 hlenM hlenL hnp2'
  have hperm2 := setSplitIdxPerm
    ((setSplitIdx imgs.length idents (v.add t) np1).2.map
      (fun i => imgs.getD i default)).length
    ((setSplitIdx imgs.length idents (v.add t) np1).2.map (fun i => idents.getD i default))
    (t.div (v.add t)) np2 hlenM hnp2'
  have hbc := hperm2.map (fun i =>
    ((setSplitIdx imgs.length idents (v.add t) np1).2.map
      (fun i => imgs.getD i default)).getD i default)
  rw [mapGetDRange] at hbc
  have hti := hperm1.map (fun i => imgs.getD i default)
  rw [mapGetDRange imgs] at hti
  rw [List.map_append] at hti hbc
  have hfull := (List.Perm.append_left _ hbc).trans hti
  have hnodup := hfull.nodup_iff.mpr hnd
  obtain ⟨nda, ndbc, dbc⟩ := List.nodup_append.mp hnodup
  have hB : (v.den : ℚ) ≠ 0 := Nat.cast_ne_zero.mpr (by omega)
  have hD : (t.den : ℚ) ≠ 0 := Nat.cast_ne_zero.mpr (by omega)
  have hvq : (0 : ℚ) < (v.num : ℚ) := by exact_mod_cast hv
  have htq : (0 : ℚ) < (t.num : ℚ) := by exact_mod_cast ht
  have hvdq : (0 : ℚ) < (v.den : ℚ) := by exact_mod_cast hvd
  have htdq : (0 : ℚ) < (t.den : ℚ) := by exact_mod_cast htd
  have hS : ((v.num : ℚ) * t.den + t.num * v.den) ≠ 0 := by
    have h1 : (0 : ℚ) < (v.num : ℚ) * t.den := mul_pos hvq htdq
    have h2 : (0 : ℚ) < (t.num : ℚ) * v.den := mul_pos htq hvdq
    have : (0 : ℚ) < (v.num : ℚ) * t.den + t.num * v.den := by linarith
    exact ne_of_gt this
  refine ⟨_, _, _, ?_, ?_,
    (List.disjoint_append_right.mp dbc).1,
    (List.disjoint_append_right.mp dbc).2,
    (List.nodup_append.mp ndbc).2.2, ?_, ?_⟩
  · show threeWayE imgs lbls idents v t np1 np2 = _
    simp only [threeWayE, hok1, hok2]
  · rw [List.append_assoc]
    exact hfull
  · simp only [Frac.toRat, Frac.add, Frac.div]
    push_cast
    field_simp
    ring
  · simp only [Frac.toRat, Frac.add, Frac.div]
    push_cast
    field_simp
    ring

theorem three_way_split_partition_witness :
    (([['a'], ['a'], ['a'], ['a'], ['a']] : List PyStr).length =
        (["a", "b", "c", "d", "e"] : List String).length ∧
     (["la", "lb", "lc", "ld", "le"] : List String).length =
        (["a", "b", "c", "d", "e"] : List String).length ∧
     (["a", "b", "c", "d", "e"] : List String).Nodup ∧
     List.Perm [0, 1, 2, 3, 4] (List.range (["a", "b", "c", "d", "e"] : List String).length) ∧
     List.Perm [1, 0] (List.range
       (setSplitIdx (["a", "b", "c", "d", "e"] : List String).length
         [['a'], ['a'], ['a'], ['a'], ['a']]
         (Frac.add ⟨1, 5⟩ ⟨1, 5⟩) [0, 1, 2, 3, 4]).2.length) ∧
     0 < (⟨1, 5⟩ : Frac).num ∧ 0 < (⟨1, 5⟩ : Frac).den) ∧
    ∃ a b c, threeWayE ["a", "b", "c", "d", "e"] ["la", "lb", "lc", "ld", "le"]
        [['a'], ['a'], ['a'], ['a'], ['a']] ⟨1, 5⟩ ⟨1, 5⟩ [0, 1, 2, 3, 4] [1, 0] =
        Except.ok (a, b, c) ∧
      (a ++ b ++ c).Perm ["a", "b", "c", "d", "e"] ∧
      a.Disjoint b ∧ a.Disjoint c ∧ b.Disjoint c ∧
      (Frac.div ⟨1, 5⟩ (Frac.add ⟨1, 5⟩ ⟨1, 5⟩)).toRat * (Frac.add ⟨1, 5⟩ ⟨1, 5⟩).toRat =
        (⟨1, 5⟩ : Frac).toRat ∧
      (1 - (Frac.div ⟨1, 5⟩ (Frac.add ⟨1, 5⟩ ⟨1, 5⟩)).toRat) * (Frac.add ⟨1, 5⟩ ⟨1, 5⟩).toRat =
        (⟨1, 5⟩ : Frac).toRat :=
  ⟨⟨by decide, by decide, by decide, by decide, by decide, by decide, by decide⟩,
    three_way_split_partition ["a", "b", "c", "d", "e"] ["la", "lb", "lc", "ld", "le"]
      [['a'], ['a'], ['a'], ['a'], ['a']] ⟨1, 5⟩ ⟨1, 5⟩ [0, 1, 2, 3, 4] [1, 0]
      (by decide) (by decide) (by decide) (by decide) (by decide)
      (by decide) (by decide) (by decide) (by decide)⟩
